import Mathlib

/-
Verification of the booking/message server in src/server/index.js.

The server keeps two process-scoped mutable arrays, `bookings` and
`messages`, and exposes CRUD-style HTTP routes over them.  This file is a
shallow embedding of that code: each route handler becomes a Lean function
from the request data and the server state to a response and a new state.

Modelling conventions, matched to the JavaScript source:
  * timestamps (`new Date()`, `Date.now()`) are `Int` milliseconds and are
    passed in as explicit `now` arguments;
  * `uuidv4()` results are opaque strings passed in as explicit `freshId`
    arguments (their collision-freedom becomes a hypothesis where needed);
  * JSON request-body fields are `Option String` (absent = `none`), and the
    JavaScript truthiness test `!field` on such a field is `truthy` below
    (absent and the empty string are the falsy cases for strings);
  * JSON response bodies are records whose `Option` fields are `none`
    exactly when the JavaScript object omits the key;
  * the csurf middleware is modelled by a `csrfValid : Bool` flag: when the
    token is invalid the error-handling middleware answers 403 with a fresh
    token and the route handler never runs (lines 158-164 and 664-669);
  * the outbound mail relay is modelled by an `emailOk : Bool` flag giving
    the outcome of `sendConfirmationEmail` (lines 485-501);
  * `JSON.stringify(data, null, 2)` pretty-printing is not re-implemented:
    the export response carries the exported value itself plus the
    content-disposition header string built exactly as on line 345.
-/

/-- A booking record (lines 23-48 and 591-605).  The sample records lack
`startTime`/`endTime`/`location`/`updatedAt`, so those are `Option`. -/
structure Booking where
  id : String
  clientName : String
  clientEmail : String
  clientPhone : String
  eventType : String
  eventDate : Int
  package : String
  startTime : Option String
  endTime : Option String
  location : Option String
  additionalNotes : String
  status : String
  createdAt : Int
  updatedAt : Option Int
deriving Repr, DecidableEq

/-- A contact-message record (lines 50-71 and 528-538).  The sample records
lack `phone` and `readAt`, so those are `Option`. -/
structure Message where
  id : String
  name : String
  email : String
  phone : Option String
  subject : String
  message : String
  date : Int
  read : Bool
  archived : Bool
  readAt : Option Int
deriving Repr, DecidableEq

/-- The two in-memory collections (lines 18-19). -/
structure ServerState where
  bookings : List Booking
  messages : List Message
deriving Repr, DecidableEq

/-- JavaScript truthiness of an optional string field: `!x` is true exactly
when the field is absent or the empty string. -/
def truthy : Option String → Bool
  | some s => s != ""
  | none => false

/-- JavaScript `field || dflt` for an optional string field: the default is
used when the field is absent or empty. -/
def jsOr (v : Option String) (dflt : String) : String :=
  match v with
  | some s => if s = "" then dflt else s
  | none => dflt

/-- The query parameters consulted by the GET routes. -/
structure Query where
  status : Option String := none
  id : Option String := none
  includeArchived : Option String := none
  unread : Option String := none
deriving Repr, DecidableEq

/-- Bodies of the JSON responses produced by the GET routes. The `health`
and `authStatus` payload details (uptime, database state, username) are
environment data outside the store and are elided. -/
inductive GetBody where
  | errorMsg (e : String)
  | bookingsList (bs : List Booking)
  | booking (b : Booking)
  | messagesList (ms : List Message)
  | message (m : Message)
  | tokenInfo (token : String) (expires : Int)
  | health
  | authStatus (authenticated : Bool)
deriving Repr, DecidableEq

/-- A GET response: status, optional content-disposition header, body. -/
structure GetResponse where
  status : Nat
  contentDisposition : Option String := none
  body : GetBody
deriving Repr, DecidableEq

/-- `bookings.find(b => b.id === id)` (lines 300 and 337). -/
def findBooking (id : String) : List Booking → Option Booking
  | [] => none
  | b :: rest => if b.id == id then some b else findBooking id rest

/-- GET /api/admin/bookings (lines 280-296): optional exact
case-insensitive status filter, then sort descending by event date. -/
def listBookings (q : Query) (bs : List Booking) : List Booking :=
  let filtered :=
    if truthy q.status then
      bs.filter (fun b => b.status.toLower == (q.status.getD "").toLower)
    else bs
  filtered.mergeSort (fun a b => decide (b.eventDate ≤ a.eventDate))

/-- GET /api/admin/bookings/:id (lines 298-306). -/
def getBookingHandler (id : String) (st : ServerState) :
    GetResponse × ServerState :=
  match findBooking id st.bookings with
  | none => ({ status := 404, body := .errorMsg "Booking not found" }, st)
  | some b => ({ status := 200, body := .booking b }, st)

/-- GET /api/admin/bookings/export (lines 331-350): a truthy `id` query
parameter selects a single booking (404 when absent from the store),
otherwise the whole collection is exported; the content-disposition
header is built as on line 345. -/
def exportHandler (q : Query) (st : ServerState) : GetResponse × ServerState :=
  if truthy q.id then
    match findBooking (q.id.getD "") st.bookings with
    | none => ({ status := 404, body := .errorMsg "Booking not found" }, st)
    | some b =>
        ({ status := 200,
           contentDisposition :=
             some ("attachment; filename=booking-" ++ q.id.getD "" ++ ".json"),
           body := .booking b }, st)
  else
    ({ status := 200,
       contentDisposition := some "attachment; filename=bookings.json",
       body := .bookingsList st.bookings }, st)

/-- GET /api/admin/messages (lines 353-371): exclude archived unless
`includeArchived=true`, restrict to unread when `unread=true`, then sort
descending by received date. -/
def listMessages (q : Query) (ms : List Message) : List Message :=
  let f1 :=
    if q.includeArchived ≠ some "true" then ms.filter (fun m => !m.archived)
    else ms
  let f2 :=
    if q.unread = some "true" then f1.filter (fun m => !m.read)
    else f1
  f2.mergeSort (fun a b => decide (b.date ≤ a.date))

/-- `messages.findIndex(m => m.id === id)` followed by the in-place merge
setting `read = true` and `readAt` (lines 375-383 and 392-399): returns the
updated record and the updated list, or `none` when the id is absent. -/
def markMsgInList (now : Int) (id : String) :
    List Message → Option (Message × List Message)
  | [] => none
  | m :: rest =>
    if m.id == id then
      let m2 := { m with read := true, readAt := some now }
      some (m2, m2 :: rest)
    else
      match markMsgInList now id rest with
      | none => none
      | some (m2, rest2) => some (m2, m :: rest2)

/-- GET /api/admin/messages/:id (lines 373-388): note that this GET
mutates the store, setting the read flag as a side effect. -/
def getMessageHandler (id : String) (now : Int) (st : ServerState) :
    GetResponse × ServerState :=
  match markMsgInList now id st.messages with
  | none => ({ status := 404, body := .errorMsg "Message not found" }, st)
  | some (m2, ms2) =>
      ({ status := 200, body := .message m2 }, { st with messages := ms2 })

/-- The GET operations of the server, with their environment inputs made
explicit (fresh token for the mint endpoints, clock for the mutating read,
session flag for check-auth). -/
inductive GetOp where
  | csrfMint (tok : String) (now : Int)
  | health
  | checkAuth (admin : Bool)
  | listBookings (q : Query)
  | getBooking (id : String)
  | exportBookings (q : Query)
  | listMessages (q : Query)
  | getMessage (id : String) (now : Int)
deriving Repr, DecidableEq

/-- Semantics of each GET operation (lines 167-179, 231-251, 280-306,
331-350, 353-388). -/
def runGetOp : GetOp → ServerState → GetResponse × ServerState
  | .csrfMint tok now, st =>
      ({ status := 200,
         body := .tokenInfo tok (now + 24 * 60 * 60 * 1000) }, st)
  | .health, st => ({ status := 200, body := .health }, st)
  | .checkAuth admin, st =>
      ({ status := 200, body := .authStatus admin }, st)
  | .listBookings q, st =>
      ({ status := 200, body := .bookingsList (listBookings q st.bookings) }, st)
  | .getBooking id, st => getBookingHandler id st
  | .exportBookings q, st => exportHandler q st
  | .listMessages q, st =>
      ({ status := 200, body := .messagesList (listMessages q st.messages) }, st)
  | .getMessage id now, st => getMessageHandler id now st

/-- One segment of an Express route pattern: a literal, or a `:name`
parameter capturing exactly one path segment. -/
inductive Seg where
  | lit (s : String)
  | param (name : String)
deriving Repr, DecidableEq

/-- Express pattern matching of a route against a path split into
segments, returning the captured parameters. -/
def matchSegs : List Seg → List String → Option (List (String × String))
  | [], [] => some []
  | .lit s :: ps, x :: xs =>
      if s == x then matchSegs ps xs else none
  | .param n :: ps, x :: xs =>
      (matchSegs ps xs).map (fun captured => (n, x) :: captured)
  | _, _ => none

/-- Tags for the GET routes, in need of dispatch. -/
inductive RouteTag where
  | csrfApi
  | csrfPlain
  | health
  | checkAuth
  | bookingsList
  | bookingById
  | bookingsExport
  | messagesList
  | messageById
deriving Repr, DecidableEq

/-- The GET routes registered before the `/api/admin` authentication guard
of line 277, in source registration order (lines 167, 174, 231, 241). -/
def preAuthGetRoutes : List (List Seg × RouteTag) :=
  [([.lit "api", .lit "csrf-token"], .csrfApi),
   ([.lit "csrf-token"], .csrfPlain),
   ([.lit "api", .lit "admin", .lit "health"], .health),
   ([.lit "api", .lit "admin", .lit "check-auth"], .checkAuth)]

/-- The GET routes registered after the authentication guard, in source
registration order (lines 280, 298, 331, 353, 373).  Note that the
`/api/admin/bookings/:id` pattern is registered BEFORE
`/api/admin/bookings/export`, exactly as in the source. -/
def adminGetRoutes : List (List Seg × RouteTag) :=
  [([.lit "api", .lit "admin", .lit "bookings"], .bookingsList),
   ([.lit "api", .lit "admin", .lit "bookings", .param "id"], .bookingById),
   ([.lit "api", .lit "admin", .lit "bookings", .lit "export"], .bookingsExport),
   ([.lit "api", .lit "admin", .lit "messages"], .messagesList),
   ([.lit "api", .lit "admin", .lit "messages", .param "id"], .messageById)]

/-- Express routing: the first registered route whose pattern matches the
path wins. -/
def firstRoute : List (List Seg × RouteTag) → List String →
    Option (RouteTag × List (String × String))
  | [], _ => none
  | (p, t) :: rest, path =>
    match matchSegs p path with
    | some captured => some (t, captured)
    | none => firstRoute rest path

/-- Turn a matched route and its captured parameters into the GET
operation the corresponding handler performs. -/
def tagToOp (tag : RouteTag) (params : List (String × String)) (q : Query)
    (admin : Bool) (tok : String) (now : Int) : GetOp :=
  match tag with
  | .csrfApi => .csrfMint tok now
  | .csrfPlain => .csrfMint tok now
  | .health => .health
  | .checkAuth => .checkAuth admin
  | .bookingsList => .listBookings q
  | .bookingById => .getBooking ((params.lookup "id").getD "")
  | .bookingsExport => .exportBookings q
  | .messagesList => .listMessages q
  | .messageById => .getMessage ((params.lookup "id").getD "") now

/-- GET dispatch through the Express middleware stack, in registration
order: first the routes registered before the `/api/admin` guard, then the
guard itself (401 for a non-admin session, lines 220-228 and 277), then
the admin routes.  `none` means no route matched. -/
def dispatchGet (admin : Bool) (tok : String) (now : Int)
    (path : List String) (q : Query) (st : ServerState) :
    Option (GetResponse × ServerState) :=
  match firstRoute preAuthGetRoutes path with
  | some (tag, ps) => some (runGetOp (tagToOp tag ps q admin tok now) st)
  | none =>
    if path.take 2 = ["api", "admin"] ∧ admin = false then
      some ({ status := 401, body := .errorMsg "Authentication required" }, st)
    else
      match firstRoute adminGetRoutes path with
      | some (tag, ps) => some (runGetOp (tagToOp tag ps q admin tok now) st)
      | none => none

/-- Request body of POST /api/submit-contact (line 518). -/
structure ContactBody where
  name : Option String := none
  email : Option String := none
  phone : Option String := none
  subject : Option String := none
  message : Option String := none
deriving Repr, DecidableEq

/-- Request body of POST /submit-booking (lines 570-581). -/
structure BookingBody where
  name : Option String := none
  email : Option String := none
  phone : Option String := none
  eventType : Option String := none
  date : Option String := none
  package : Option String := none
  startTime : Option String := none
  endTime : Option String := none
  location : Option String := none
  details : Option String := none
deriving Repr, DecidableEq

/-- Body of a JSON response from the mutating POST endpoints; each
`Option` field is `none` exactly when the JavaScript object omits the
key.  `message` is the human-readable text field of the body. -/
structure PostResponse where
  status : Nat
  success : Option Bool := none
  error : Option String := none
  message : Option String := none
  data : Option Message := none
  booking : Option Booking := none
  messageId : Option String := none
  bookingId : Option String := none
  emailSent : Option Bool := none
  csrfToken : Option String := none
deriving Repr, DecidableEq

/-- `bookings.findIndex(b => b.id === id)` followed by the in-place merge
setting `status = 'confirmed'` and `updatedAt` (lines 310-317): returns
the updated record and the updated list, or `none` when the id is absent. -/
def confirmInList (now : Int) (id : String) :
    List Booking → Option (Booking × List Booking)
  | [] => none
  | b :: rest =>
    if b.id == id then
      let b2 := { b with status := "confirmed", updatedAt := some now }
      some (b2, b2 :: rest)
    else
      match confirmInList now id rest with
      | none => none
      | some (b2, rest2) => some (b2, b :: rest2)

/-- POST /api/admin/bookings/:id/confirm, after CSRF validation
(lines 308-329).  The 404 branch of line 311 sends only an error body;
the success branch spreads the updated booking plus a fresh token. -/
def confirmHandler (id : String) (now : Int) (freshTok : String)
    (st : ServerState) : PostResponse × ServerState :=
  match confirmInList now id st.bookings with
  | none => ({ status := 404, error := some "Booking not found" }, st)
  | some (b2, bs2) =>
      ({ status := 200, booking := some b2, csrfToken := some freshTok },
       { st with bookings := bs2 })

/-- POST /api/admin/messages/:id/mark-read, after CSRF validation
(lines 390-413).  The 404 branch of line 393 sends only an error body. -/
def markReadHandler (id : String) (now : Int) (freshTok : String)
    (st : ServerState) : PostResponse × ServerState :=
  match markMsgInList now id st.messages with
  | none => ({ status := 404, error := some "Message not found" }, st)
  | some (m2, ms2) =>
      ({ status := 200, success := some true,
         message := some "Message marked as read",
         data := some m2, csrfToken := some freshTok },
       { st with messages := ms2 })

/-- POST /api/submit-contact, after CSRF validation (lines 516-565):
validate presence of name/email/message, build the new record
(lines 528-538), append it, report the email outcome. -/
def submitContactHandler (body : ContactBody) (freshId : String) (now : Int)
    (emailOk : Bool) (freshTok : String) (st : ServerState) :
    PostResponse × ServerState :=
  if !truthy body.name || !truthy body.email || !truthy body.message then
    ({ status := 400, success := some false,
       message := some "Missing required fields (name, email, message)",
       csrfToken := some freshTok }, st)
  else
    let newMessage : Message :=
      { id := freshId
        name := (body.name.getD "").trim
        email := (body.email.getD "").trim
        phone := some (if truthy body.phone then (body.phone.getD "").trim else "")
        subject := jsOr body.subject "General Inquiry"
        message := (body.message.getD "").trim
        date := now
        read := false
        archived := false
        readAt := none }
    ({ status := 201, success := some true,
       message := some "Message sent successfully!",
       messageId := some freshId,
       emailSent := some emailOk,
       csrfToken := some freshTok },
     { st with messages := st.messages ++ [newMessage] })

/-- POST /submit-booking, after CSRF validation (lines 568-637): validate
presence of the nine required fields, build the new record
(lines 591-605), append it, report the email outcome.
`parsedEventDate` stands for `new Date(date + ' ' + startTime)` of
line 597, whose value depends on the runtime date parser. -/
def submitBookingHandler (body : BookingBody) (freshId : String)
    (now parsedEventDate : Int) (emailOk : Bool) (freshTok : String)
    (st : ServerState) : PostResponse × ServerState :=
  if !truthy body.name || !truthy body.email || !truthy body.phone ||
     !truthy body.eventType || !truthy body.date || !truthy body.package ||
     !truthy body.startTime || !truthy body.endTime || !truthy body.location then
    ({ status := 400, success := some false,
       message := some "Missing required fields",
       csrfToken := some freshTok }, st)
  else
    let newBooking : Booking :=
      { id := freshId
        clientName := body.name.getD ""
        clientEmail := body.email.getD ""
        clientPhone := body.phone.getD ""
        eventType := body.eventType.getD ""
        eventDate := parsedEventDate
        package := body.package.getD ""
        startTime := some (body.startTime.getD "")
        endTime := some (body.endTime.getD "")
        location := some (body.location.getD "")
        additionalNotes := jsOr body.details ""
        status := "pending"
        createdAt := now
        updatedAt := none }
    ({ status := 201, success := some true,
       message := some "Booking request received successfully!",
       bookingId := some freshId,
       emailSent := some emailOk,
       csrfToken := some freshTok },
     { st with bookings := st.bookings ++ [newBooking] })

/-- The state-changing POST operations, with their environment inputs
(clock, fresh uuid, email outcome, parsed event date) made explicit. -/
inductive PostOp where
  | confirmBooking (id : String) (now : Int)
  | markRead (id : String) (now : Int)
  | submitContact (body : ContactBody) (freshId : String) (now : Int) (emailOk : Bool)
  | submitBooking (body : BookingBody) (freshId : String)
      (now parsedEventDate : Int) (emailOk : Bool)
deriving Repr, DecidableEq

/-- Dispatch to the POST handlers, after CSRF validation succeeded. -/
def postHandler (op : PostOp) (freshTok : String) (st : ServerState) :
    PostResponse × ServerState :=
  match op with
  | .confirmBooking id now => confirmHandler id now freshTok st
  | .markRead id now => markReadHandler id now freshTok st
  | .submitContact b fid now eo => submitContactHandler b fid now eo freshTok st
  | .submitBooking b fid now pd eo =>
      submitBookingHandler b fid now pd eo freshTok st

/-- A POST request through the csurf middleware: an invalid token raises
EBADCSRFTOKEN, which the error middleware of lines 664-669 answers with
403 and a fresh token, without running the route handler; a valid token
runs the handler. -/
def runPost (op : PostOp) (csrfValid : Bool) (freshTok : String)
    (st : ServerState) : PostResponse × ServerState :=
  if csrfValid then postHandler op freshTok st
  else
    ({ status := 403, error := some "Invalid CSRF token",
       csrfToken := some freshTok }, st)

/-- Every exposed store-touching operation of the server, GET or POST. -/
inductive ApiOp where
  | getReq (g : GetOp)
  | postReq (p : PostOp) (csrfValid : Bool) (freshTok : String)
deriving Repr, DecidableEq

/-- The state transition performed by one request. -/
def apiStep : ApiOp → ServerState → ServerState
  | .getReq g, st => (runGetOp g st).2
  | .postReq p v tok, st => (runPost p v tok st).2

/-- First sample booking of `initializeSampleData` (lines 23-35), with the
uuid and the clock made concrete (`now = 0`). -/
def sampleBooking1 : Booking :=
  { id := "booking-1"
    clientName := "John Doe"
    clientEmail := "john@example.com"
    clientPhone := "555-0101"
    eventType := "Wedding"
    eventDate := 7 * 24 * 60 * 60 * 1000
    package := "Premium"
    startTime := none
    endTime := none
    location := none
    additionalNotes := "Outdoor ceremony requested"
    status := "pending"
    createdAt := 0
    updatedAt := none }

/-- Second sample booking of `initializeSampleData` (lines 36-47). -/
def sampleBooking2 : Booking :=
  { id := "booking-2"
    clientName := "Jane Smith"
    clientEmail := "jane@example.com"
    clientPhone := "555-0202"
    eventType := "Portrait"
    eventDate := 14 * 24 * 60 * 60 * 1000
    package := "Basic"
    startTime := none
    endTime := none
    location := none
    additionalNotes := ""
    status := "confirmed"
    createdAt := 0
    updatedAt := none }

/-- First sample message of `initializeSampleData` (lines 51-60). -/
def sampleMessage1 : Message :=
  { id := "message-1"
    name := "Sarah Johnson"
    email := "sarah@example.com"
    phone := none
    subject := "Wedding Inquiry"
    message := "I would like information about your wedding packages."
    date := 0
    read := false
    archived := false
    readAt := none }

/-- Second sample message of `initializeSampleData` (lines 61-70). -/
def sampleMessage2 : Message :=
  { id := "message-2"
    name := "Mike Brown"
    email := "mike@example.com"
    phone := none
    subject := "Availability Question"
    message := "Are you available for a corporate event on June 15th?"
    date := -(2 * 24 * 60 * 60 * 1000)
    read := true
    archived := false
    readAt := none }

/-- The server state right after `initializeSampleData()` (line 75). -/
def sampleState : ServerState :=
  { bookings := [sampleBooking1, sampleBooking2]
    messages := [sampleMessage1, sampleMessage2] }

/-- Claim C1: the spec says a GET to /api/admin/bookings/export with no id
returns the full collection as an attachment, with a matching id the single
booking, and 404 otherwise.  In the code the route
`/api/admin/bookings/:id` (line 298) is registered before
`/api/admin/bookings/export` (line 331), so Express hands the export path
to the by-id handler with id = "export", which answers 404 for any store
whose bookings carry uuid identifiers.  This theorem evaluates the failing
request on the sample store and contrasts it with what the shadowed export
handler would have answered. -/
theorem export_route_shadowed_by_id_route :
    dispatchGet true "tok" 0 ["api", "admin", "bookings", "export"] {} sampleState
      = some ({ status := 404, body := .errorMsg "Booking not found" }, sampleState)
    ∧ runGetOp (.exportBookings {}) sampleState
      = ({ status := 200,
           contentDisposition := some "attachment; filename=bookings.json",
           body := .bookingsList sampleState.bookings }, sampleState) := by
  exact ⟨rfl, rfl⟩

/-- Claim C2 counterexample: confirming a booking id absent from the store
answers 404 with no csrfToken field in the body (line 311 sends only the
error), refuting the claim that every outcome carries a fresh token. -/
theorem confirm_not_found_response_lacks_token :
    (runPost (.confirmBooking "no-such-id" 0) true "fresh-token" sampleState).1.status = 404
    ∧ (runPost (.confirmBooking "no-such-id" 0) true "fresh-token" sampleState).1.csrfToken
        = none := by
  exact ⟨rfl, rfl⟩

/-- Claim C2 (amended): every response of the mutating POST endpoints
carries the freshly minted CSRF token, except the 404 not-found responses
of confirm and mark-read, which carry only an error message. -/
theorem post_response_fresh_token_unless_not_found
    (op : PostOp) (v : Bool) (tok : String) (st : ServerState) :
    (runPost op v tok st).1.csrfToken = some tok
    ∨ (runPost op v tok st).1.status = 404 := by
  cases v with
  | false => exact Or.inl rfl
  | true =>
    rw [show runPost op true tok st = postHandler op tok st from rfl]
    cases op with
    | confirmBooking id now =>
      simp only [postHandler, confirmHandler]
      cases confirmInList now id st.bookings with
      | none => exact Or.inr rfl
      | some p => exact Or.inl rfl
    | markRead id now =>
      simp only [postHandler, markReadHandler]
      cases markMsgInList now id st.messages with
      | none => exact Or.inr rfl
      | some p => exact Or.inl rfl
    | submitContact b fid now eo =>
      simp only [postHandler, submitContactHandler]
      split
      · exact Or.inl rfl
      · exact Or.inl rfl
    | submitBooking b fid now pd eo =>
      simp only [postHandler, submitBookingHandler]
      split
      · exact Or.inl rfl
      · exact Or.inl rfl

/-- Claim C3: a state-changing POST presented without a valid CSRF token
is answered 403 by the error middleware (lines 664-669) and the route
handler never runs, so both collections are exactly as before. -/
theorem invalid_csrf_post_rejected_without_mutation
    (op : PostOp) (tok : String) (st : ServerState) :
    (runPost op false tok st).1.status = 403
    ∧ (runPost op false tok st).2.bookings = st.bookings
    ∧ (runPost op false tok st).2.messages = st.messages := by
  exact ⟨rfl, rfl, rfl⟩

/-- Claim C4: a contact submission in which name, email or message is
missing (falsy) is answered 400 and appends nothing (lines 520-526). -/
theorem contact_missing_field_400_no_append
    (st : ServerState) (b : ContactBody) (fid : String) (now : Int)
    (eo : Bool) (tok : String)
    (h : truthy b.name = false ∨ truthy b.email = false ∨ truthy b.message = false) :
    (runPost (.submitContact b fid now eo) true tok st).1.status = 400
    ∧ (runPost (.submitContact b fid now eo) true tok st).2.messages = st.messages := by
  rw [show runPost (.submitContact b fid now eo) true tok st
      = submitContactHandler b fid now eo tok st from rfl]
  have hcond : (!truthy b.name || !truthy b.email || !truthy b.message) = true := by
    rcases h with h | h | h <;> simp [h]
  simp [submitContactHandler, hcond]

/-- A concrete contact body missing its name field. -/
def contactBodyNoName : ContactBody :=
  { email := some "a@b.com", message := some "hello" }

/-- Witness for claim C4 at a concrete input. -/
theorem contact_missing_field_400_no_append_witness :
    (truthy contactBodyNoName.name = false
      ∨ truthy contactBodyNoName.email = false
      ∨ truthy contactBodyNoName.message = false)
    ∧ ((runPost (.submitContact contactBodyNoName "fresh-1" 5 true) true "tok-1"
          sampleState).1.status = 400
        ∧ (runPost (.submitContact contactBodyNoName "fresh-1" 5 true) true "tok-1"
          sampleState).2.messages = sampleState.messages) :=
  ⟨Or.inl rfl,
   contact_missing_field_400_no_append sampleState contactBodyNoName "fresh-1" 5 true
     "tok-1" (Or.inl rfl)⟩

/-- Claim C5: a contact submission with name, email and message all present
appends exactly one record at the end, with read and archived false and an
identifier fresh with respect to the store (uuid freshness is the
hypothesis `hfresh`), and answers 201 reporting that identifier. -/
theorem contact_valid_appends_unique_record
    (st : ServerState) (b : ContactBody) (fid : String) (now : Int)
    (eo : Bool) (tok : String)
    (hn : truthy b.name = true) (he : truthy b.email = true)
    (hm : truthy b.message = true)
    (hfresh : ∀ m ∈ st.messages, m.id ≠ fid) :
    ∃ newMsg : Message,
      (runPost (.submitContact b fid now eo) true tok st).2.messages
        = st.messages ++ [newMsg]
      ∧ newMsg.id = fid
      ∧ newMsg.read = false
      ∧ newMsg.archived = false
      ∧ (∀ m ∈ st.messages, m.id ≠ newMsg.id)
      ∧ (runPost (.submitContact b fid now eo) true tok st).1.status = 201
      ∧ (runPost (.submitContact b fid now eo) true tok st).1.messageId = some fid
      ∧ (runPost (.submitContact b fid now eo) true tok st).1.success = some true
      ∧ (runPost (.submitContact b fid now eo) true tok st).2.bookings = st.bookings := by
  rw [show runPost (.submitContact b fid now eo) true tok st
      = submitContactHandler b fid now eo tok st from rfl]
  have hcond : (!truthy b.name || !truthy b.email || !truthy b.message) = false := by
    simp [hn, he, hm]
  refine ⟨{ id := fid
            name := (b.name.getD "").trim
            email := (b.email.getD "").trim
            phone := some (if truthy b.phone then (b.phone.getD "").trim else "")
            subject := jsOr b.subject "General Inquiry"
            message := (b.message.getD "").trim
            date := now
            read := false
            archived := false
            readAt := none }, ?_, rfl, rfl, rfl, hfresh, ?_, ?_, ?_, ?_⟩
    <;> simp [submitContactHandler, hcond]

/-- A concrete complete contact body. -/
def contactBodyFull : ContactBody :=
  { name := some "Ada", email := some "ada@example.com",
    phone := some "555-1111", subject := some "Hi", message := some "A question" }

/-- Witness for claim C5 at a concrete input. -/
theorem contact_valid_appends_unique_record_witness :
    truthy contactBodyFull.name = true
    ∧ truthy contactBodyFull.email = true
    ∧ truthy contactBodyFull.message = true
    ∧ (∀ m ∈ sampleState.messages, m.id ≠ "fresh-2")
    ∧ (∃ newMsg : Message,
        (runPost (.submitContact contactBodyFull "fresh-2" 7 false) true "tok-2"
            sampleState).2.messages = sampleState.messages ++ [newMsg]
        ∧ newMsg.id = "fresh-2"
        ∧ newMsg.read = false
        ∧ newMsg.archived = false
        ∧ (∀ m ∈ sampleState.messages, m.id ≠ newMsg.id)
        ∧ (runPost (.submitContact contactBodyFull "fresh-2" 7 false) true "tok-2"
            sampleState).1.status = 201
        ∧ (runPost (.submitContact contactBodyFull "fresh-2" 7 false) true "tok-2"
            sampleState).1.messageId = some "fresh-2"
        ∧ (runPost (.submitContact contactBodyFull "fresh-2" 7 false) true "tok-2"
            sampleState).1.success = some true
        ∧ (runPost (.submitContact contactBodyFull "fresh-2" 7 false) true "tok-2"
            sampleState).2.bookings = sampleState.bookings) :=
  ⟨rfl, rfl, rfl, by decide,
   contact_valid_appends_unique_record sampleState contactBodyFull "fresh-2" 7 false
     "tok-2" rfl rfl rfl (by decide)⟩

/-- Helper for claim C6: when `find` locates a booking, `findIndex` plus
the in-place merge locates the same (first) occurrence, replaces it by the
confirmed record, and the confirmed record is what a subsequent `find`
returns. -/
theorem confirmInList_of_findBooking (now : Int) (id : String)
    (l : List Booking) (b : Booking) (h : findBooking id l = some b) :
    ∃ l2, confirmInList now id l
        = some ({ b with status := "confirmed", updatedAt := some now }, l2)
      ∧ findBooking id l2
        = some { b with status := "confirmed", updatedAt := some now } := by
  induction l with
  | nil => simp [findBooking] at h
  | cons hd tl ih =>
    by_cases hid : (hd.id == id) = true
    · rw [findBooking, if_pos hid] at h
      obtain rfl : hd = b := by injection h
      refine ⟨{ hd with status := "confirmed", updatedAt := some now } :: tl, ?_, ?_⟩
      · rw [confirmInList, if_pos hid]
      · rw [findBooking, if_pos hid]
    · rw [findBooking, if_neg hid] at h
      obtain ⟨l2, hc, hf⟩ := ih h
      refine ⟨hd :: l2, ?_, ?_⟩
      · rw [confirmInList, if_neg hid, hc]
      · rw [findBooking, if_neg hid, hf]

/-- Claim C6: confirming a booking present in the store twice leaves its
observable status at confirmed, the update timestamp is rewritten on each
call, and every field other than status and updatedAt keeps the value it
had before the first confirm (the responses and the stored record are the
original booking with only those two fields overwritten). -/
theorem confirm_twice_idempotent_status
    (st : ServerState) (id : String) (t1 t2 : Int) (tok1 tok2 : String)
    (b : Booking) (hb : findBooking id st.bookings = some b) :
    (runPost (.confirmBooking id t1) true tok1 st).1.status = 200
    ∧ (runPost (.confirmBooking id t1) true tok1 st).1.booking
        = some { b with status := "confirmed", updatedAt := some t1 }
    ∧ (runPost (.confirmBooking id t2) true tok2
        (runPost (.confirmBooking id t1) true tok1 st).2).1.status = 200
    ∧ (runPost (.confirmBooking id t2) true tok2
        (runPost (.confirmBooking id t1) true tok1 st).2).1.booking
        = some { b with status := "confirmed", updatedAt := some t2 }
    ∧ findBooking id ((runPost (.confirmBooking id t2) true tok2
        (runPost (.confirmBooking id t1) true tok1 st).2).2).bookings
        = some { b with status := "confirmed", updatedAt := some t2 }
    ∧ ((runPost (.confirmBooking id t2) true tok2
        (runPost (.confirmBooking id t1) true tok1 st).2).2).messages
        = st.messages := by
  obtain ⟨l2, hc1, hf1⟩ := confirmInList_of_findBooking t1 id st.bookings b hb
  rw [show runPost (.confirmBooking id t1) true tok1 st
      = confirmHandler id t1 tok1 st from rfl]
  obtain ⟨l3, hc2, hf2⟩ := confirmInList_of_findBooking t2 id l2 _ hf1
  simp only [confirmHandler, hc1]
  rw [show runPost (.confirmBooking id t2) true tok2
      { st with bookings := l2 } = confirmHandler id t2 tok2
      { st with bookings := l2 } from rfl]
  simp only [confirmHandler, hc2]
  exact ⟨trivial, trivial, trivial, trivial, hf2, trivial⟩

/-- Witness for claim C6 at a concrete input. -/
theorem confirm_twice_idempotent_status_witness :
    findBooking "booking-1" sampleState.bookings = some sampleBooking1
    ∧ ((runPost (.confirmBooking "booking-1" 11) true "tok-a" sampleState).1.status = 200
    ∧ (runPost (.confirmBooking "booking-1" 11) true "tok-a" sampleState).1.booking
        = some { sampleBooking1 with status := "confirmed", updatedAt := some 11 }
    ∧ (runPost (.confirmBooking "booking-1" 22) true "tok-b"
        (runPost (.confirmBooking "booking-1" 11) true "tok-a" sampleState).2).1.status = 200
    ∧ (runPost (.confirmBooking "booking-1" 22) true "tok-b"
        (runPost (.confirmBooking "booking-1" 11) true "tok-a" sampleState).2).1.booking
        = some { sampleBooking1 with status := "confirmed", updatedAt := some 22 }
    ∧ findBooking "booking-1" ((runPost (.confirmBooking "booking-1" 22) true "tok-b"
        (runPost (.confirmBooking "booking-1" 11) true "tok-a" sampleState).2).2).bookings
        = some { sampleBooking1 with status := "confirmed", updatedAt := some 22 }
    ∧ ((runPost (.confirmBooking "booking-1" 22) true "tok-b"
        (runPost (.confirmBooking "booking-1" 11) true "tok-a" sampleState).2).2).messages
        = sampleState.messages) :=
  ⟨by decide,
   confirm_twice_idempotent_status sampleState "booking-1" 11 22 "tok-a" "tok-b"
     sampleBooking1 (by decide)⟩

/-- An element found at an index is still at that index after appending. -/
theorem getElem?_append_of_getElem? {α : Type} (l1 l2 : List α) (i : Nat)
    (a : α) (h : l1[i]? = some a) : (l1 ++ l2)[i]? = some a := by
  rw [List.getElem?_append_left (List.getElem?_eq_some.mp h).1]
  exact h

/-- Helper for claim C7: the findIndex-and-merge mutation of the message
list keeps every index populated, never changes an identifier, and only
ever turns the read flag on. -/
theorem markMsgInList_index_preserved (now : Int) (id : String) :
    ∀ (l : List Message) (m2 : Message) (l2 : List Message),
      markMsgInList now id l = some (m2, l2) →
      ∀ (i : Nat) (m : Message), l[i]? = some m →
      ∃ m3, l2[i]? = some m3 ∧ m3.id = m.id ∧ (m.read = true → m3.read = true) := by
  intro l
  induction l with
  | nil =>
    intro m2 l2 h
    rw [markMsgInList] at h
    exact absurd h (by simp)
  | cons hd tl ih =>
    intro m2 l2 h i m hm
    by_cases hid : (hd.id == id) = true
    · rw [markMsgInList, if_pos hid] at h
      simp only [Option.some.injEq, Prod.mk.injEq] at h
      obtain ⟨h1, h2⟩ := h
      subst h2
      cases i with
      | zero =>
        rw [List.getElem?_cons_zero] at hm
        obtain rfl : hd = m := by injection hm
        exact ⟨{ hd with read := true, readAt := some now },
          by rw [List.getElem?_cons_zero], rfl, fun _ => rfl⟩
      | succ n =>
        rw [List.getElem?_cons_succ] at hm
        exact ⟨m, by rw [List.getElem?_cons_succ]; exact hm, rfl, fun hr => hr⟩
    · cases hrec : markMsgInList now id tl with
      | none =>
        rw [markMsgInList, if_neg hid, hrec] at h
        exact absurd h (by simp)
      | some p =>
        obtain ⟨m2', rest2⟩ := p
        rw [markMsgInList, if_neg hid, hrec] at h
        simp only [Option.some.injEq, Prod.mk.injEq] at h
        obtain ⟨h1, h2⟩ := h
        subst h2
        cases i with
        | zero =>
          rw [List.getElem?_cons_zero] at hm
          obtain rfl : hd = m := by injection hm
          exact ⟨hd, by rw [List.getElem?_cons_zero], rfl, fun hr => hr⟩
        | succ n =>
          rw [List.getElem?_cons_succ] at hm
          obtain ⟨m3, h3, h4, h5⟩ := ih m2' rest2 hrec n m hm
          exact ⟨m3, by rw [List.getElem?_cons_succ]; exact h3, h4, h5⟩

/-- Claim C7: under every exposed operation the message read flag is
monotonic, no message is removed (every populated index stays populated)
and no identifier changes. -/
theorem message_read_flag_monotone (op : ApiOp) (st : ServerState)
    (i : Nat) (m : Message) (h : st.messages[i]? = some m) :
    ∃ m2, (apiStep op st).messages[i]? = some m2 ∧ m2.id = m.id
      ∧ (m.read = true → m2.read = true) := by
  cases op with
  | getReq g =>
    cases g with
    | csrfMint tok now => exact ⟨m, h, rfl, fun hr => hr⟩
    | health => exact ⟨m, h, rfl, fun hr => hr⟩
    | checkAuth admin => exact ⟨m, h, rfl, fun hr => hr⟩
    | listBookings q => exact ⟨m, h, rfl, fun hr => hr⟩
    | listMessages q => exact ⟨m, h, rfl, fun hr => hr⟩
    | getBooking id =>
      have hstep : apiStep (.getReq (.getBooking id)) st = st := by
        show (getBookingHandler id st).2 = st
        rw [getBookingHandler]
        split <;> rfl
      rw [hstep]
      exact ⟨m, h, rfl, fun hr => hr⟩
    | exportBookings q =>
      have hstep : apiStep (.getReq (.exportBookings q)) st = st := by
        show (exportHandler q st).2 = st
        rw [exportHandler]
        split
        · split <;> rfl
        · rfl
      rw [hstep]
      exact ⟨m, h, rfl, fun hr => hr⟩
    | getMessage id now =>
      cases hmk : markMsgInList now id st.messages with
      | none =>
        have hstep : apiStep (.getReq (.getMessage id now)) st = st := by
          show (getMessageHandler id now st).2 = st
          rw [getMessageHandler, hmk]
        rw [hstep]
        exact ⟨m, h, rfl, fun hr => hr⟩
      | some p =>
        obtain ⟨mm, ms2⟩ := p
        have hstep : apiStep (.getReq (.getMessage id now)) st
            = { st with messages := ms2 } := by
          show (getMessageHandler id now st).2 = _
          rw [getMessageHandler, hmk]
        rw [hstep]
        exact markMsgInList_index_preserved now id st.messages mm ms2 hmk i m h
  | postReq p v tok =>
    cases v with
    | false => exact ⟨m, h, rfl, fun hr => hr⟩
    | true =>
      cases p with
      | confirmBooking id now =>
        have hstep : (apiStep (.postReq (.confirmBooking id now) true tok) st).messages
            = st.messages := by
          show ((confirmHandler id now tok st).2).messages = st.messages
          rw [confirmHandler]
          split <;> rfl
        rw [hstep]
        exact ⟨m, h, rfl, fun hr => hr⟩
      | markRead id now =>
        cases hmk : markMsgInList now id st.messages with
        | none =>
          have hstep : apiStep (.postReq (.markRead id now) true tok) st = st := by
            show (markReadHandler id now tok st).2 = st
            rw [markReadHandler, hmk]
          rw [hstep]
          exact ⟨m, h, rfl, fun hr => hr⟩
        | some pp =>
          obtain ⟨mm, ms2⟩ := pp
          have hstep : apiStep (.postReq (.markRead id now) true tok) st
              = { st with messages := ms2 } := by
            show (markReadHandler id now tok st).2 = _
            rw [markReadHandler, hmk]
          rw [hstep]
          exact markMsgInList_index_preserved now id st.messages mm ms2 hmk i m h
      | submitContact b fid now eo =>
        rw [show apiStep (.postReq (.submitContact b fid now eo) true tok) st
            = (submitContactHandler b fid now eo tok st).2 from rfl]
        rw [submitContactHandler]
        split
        · exact ⟨m, h, rfl, fun hr => hr⟩
        · exact ⟨m, getElem?_append_of_getElem? st.messages _ i m h, rfl, fun hr => hr⟩
      | submitBooking b fid now pd eo =>
        rw [show apiStep (.postReq (.submitBooking b fid now pd eo) true tok) st
            = (submitBookingHandler b fid now pd eo tok st).2 from rfl]
        rw [submitBookingHandler]
        split
        · exact ⟨m, h, rfl, fun hr => hr⟩
        · exact ⟨m, h, rfl, fun hr => hr⟩

/-- Witness for claim C7 at a concrete input: the already-read second
sample message stays read (and keeps its id) across the mutating
get-message-by-id operation. -/
theorem message_read_flag_monotone_witness :
    sampleState.messages[1]? = some sampleMessage2
    ∧ ∃ m2, (apiStep (.getReq (.getMessage "message-2" 99)) sampleState).messages[1]?
        = some m2 ∧ m2.id = sampleMessage2.id
        ∧ (sampleMessage2.read = true → m2.read = true) :=
  ⟨rfl, message_read_flag_monotone (.getReq (.getMessage "message-2" 99)) sampleState 1
      sampleMessage2 rfl⟩

/-- The comparator used by listMessages sorts descending by received
date: transitivity plus totality give pairwise sortedness. -/
theorem listMessages_sorted_aux (l : List Message) :
    List.Pairwise (fun a b : Message => b.date ≤ a.date)
      (l.mergeSort (fun a b => decide (b.date ≤ a.date))) := by
  have h1 : ∀ a b c : Message, decide (b.date ≤ a.date) = true →
      decide (c.date ≤ b.date) = true → decide (c.date ≤ a.date) = true := by
    intro a b c hab hbc
    rw [decide_eq_true_eq] at hab hbc ⊢
    exact le_trans hbc hab
  have h2 : ∀ a b : Message,
      (decide (b.date ≤ a.date) || decide (a.date ≤ b.date)) = true := by
    intro a b
    rcases le_total b.date a.date with hle | hle <;> simp [hle]
  exact (List.sorted_mergeSort h1 h2 l).imp (fun hab => decide_eq_true_eq.mp hab)

/-- Claim C8: with no query parameters the listing is exactly the
non-archived records (as a permutation, i.e. same records); with
unread=true it is exactly the non-archived unread records; with
includeArchived=true it is all records; and for every query the result is
sorted descending by received timestamp. -/
theorem list_messages_filter_sort_spec (ms : List Message) :
    (listMessages {} ms).Perm (ms.filter (fun m => !m.archived))
    ∧ (listMessages { unread := some "true" } ms).Perm
        (ms.filter (fun m => !m.read && !m.archived))
    ∧ (listMessages { includeArchived := some "true" } ms).Perm ms
    ∧ ∀ q : Query, List.Pairwise (fun a b : Message => b.date ≤ a.date)
        (listMessages q ms) := by
  refine ⟨?_, ?_, ?_, ?_⟩
  · rw [show listMessages {} ms
        = (ms.filter (fun m => !m.archived)).mergeSort
            (fun a b => decide (b.date ≤ a.date)) from rfl]
    exact List.mergeSort_perm _ _
  · rw [show listMessages { unread := some "true" } ms
        = ((ms.filter (fun m => !m.archived)).filter (fun m => !m.read)).mergeSort
            (fun a b => decide (b.date ≤ a.date)) from rfl]
    rw [List.filter_filter]
    exact List.mergeSort_perm _ _
  · rw [show listMessages { includeArchived := some "true" } ms
        = ms.mergeSort (fun a b => decide (b.date ≤ a.date)) from rfl]
    exact List.mergeSort_perm _ _
  · intro q
    exact listMessages_sorted_aux _

/-- Claim C9: for a valid contact or booking submission the email outcome
does not affect persistence or success: the resulting state is the same
whether the relay succeeded or failed, the record is appended either way,
the response is 201 with success true either way, and the two responses
differ at most in the emailSent flag, which reports the outcome. -/
theorem email_outcome_independent_of_persistence
    (st : ServerState) (cb : ContactBody) (bb : BookingBody)
    (fid gid tokc tokb : String) (n1 n2 pd : Int)
    (hn : truthy cb.name = true) (he : truthy cb.email = true)
    (hm : truthy cb.message = true)
    (h1 : truthy bb.name = true) (h2 : truthy bb.email = true)
    (h3 : truthy bb.phone = true) (h4 : truthy bb.eventType = true)
    (h5 : truthy bb.date = true) (h6 : truthy bb.package = true)
    (h7 : truthy bb.startTime = true) (h8 : truthy bb.endTime = true)
    (h9 : truthy bb.location = true) :
    ((runPost (.submitContact cb fid n1 true) true tokc st).2
        = (runPost (.submitContact cb fid n1 false) true tokc st).2)
    ∧ (∃ nm, (runPost (.submitContact cb fid n1 true) true tokc st).2.messages
        = st.messages ++ [nm])
    ∧ (∀ eo : Bool,
        (runPost (.submitContact cb fid n1 eo) true tokc st).1.status = 201
        ∧ (runPost (.submitContact cb fid n1 eo) true tokc st).1.success = some true
        ∧ (runPost (.submitContact cb fid n1 eo) true tokc st).1.emailSent = some eo)
    ∧ ({ (runPost (.submitContact cb fid n1 true) true tokc st).1 with emailSent := none }
        = { (runPost (.submitContact cb fid n1 false) true tokc st).1 with emailSent := none })
    ∧ ((runPost (.submitBooking bb gid n2 pd true) true tokb st).2
        = (runPost (.submitBooking bb gid n2 pd false) true tokb st).2)
    ∧ (∃ nb, (runPost (.submitBooking bb gid n2 pd true) true tokb st).2.bookings
        = st.bookings ++ [nb])
    ∧ (∀ eo : Bool,
        (runPost (.submitBooking bb gid n2 pd eo) true tokb st).1.status = 201
        ∧ (runPost (.submitBooking bb gid n2 pd eo) true tokb st).1.success = some true
        ∧ (runPost (.submitBooking bb gid n2 pd eo) true tokb st).1.emailSent = some eo)
    ∧ ({ (runPost (.submitBooking bb gid n2 pd true) true tokb st).1 with emailSent := none }
        = { (runPost (.submitBooking bb gid n2 pd false) true tokb st).1 with emailSent := none }) := by
  have hcondc : (!truthy cb.name || !truthy cb.email || !truthy cb.message) = false := by
    simp [hn, he, hm]
  have hcondb : (!truthy bb.name || !truthy bb.email || !truthy bb.phone ||
      !truthy bb.eventType || !truthy bb.date || !truthy bb.package ||
      !truthy bb.startTime || !truthy bb.endTime || !truthy bb.location) = false := by
    simp [h1, h2, h3, h4, h5, h6, h7, h8, h9]
  have hcrun : ∀ eo : Bool, runPost (.submitContact cb fid n1 eo) true tokc st
      = submitContactHandler cb fid n1 eo tokc st := fun _ => rfl
  have hbrun : ∀ eo : Bool, runPost (.submitBooking bb gid n2 pd eo) true tokb st
      = submitBookingHandler bb gid n2 pd eo tokb st := fun _ => rfl
  refine ⟨?_, ?_, ?_, ?_, ?_, ?_, ?_, ?_⟩
  · rw [hcrun true, hcrun false]
    simp [submitContactHandler, hcondc]
  · exact ⟨{ id := fid, name := (cb.name.getD "").trim,
             email := (cb.email.getD "").trim,
             phone := some (if truthy cb.phone then (cb.phone.getD "").trim else ""),
             subject := jsOr cb.subject "General Inquiry",
             message := (cb.message.getD "").trim, date := n1, read := false,
             archived := false, readAt := none },
           by rw [hcrun true]; simp [submitContactHandler, hcondc]⟩
  · intro eo
    rw [hcrun eo]
    simp [submitContactHandler, hcondc]
  · rw [hcrun true, hcrun false]
    simp [submitContactHandler, hcondc]
  · rw [hbrun true, hbrun false]
    simp [submitBookingHandler, hcondb]
  · exact ⟨{ id := gid, clientName := bb.name.getD "",
             clientEmail := bb.email.getD "", clientPhone := bb.phone.getD "",
             eventType := bb.eventType.getD "", eventDate := pd,
             package := bb.package.getD "",
             startTime := some (bb.startTime.getD ""),
             endTime := some (bb.endTime.getD ""),
             location := some (bb.location.getD ""),
             additionalNotes := jsOr bb.details "", status := "pending",
             createdAt := n2, updatedAt := none },
           by rw [hbrun true]; simp [submitBookingHandler, hcondb]⟩
  · intro eo
    rw [hbrun eo]
    simp [submitBookingHandler, hcondb]
  · rw [hbrun true, hbrun false]
    simp [submitBookingHandler, hcondb]

/-- A concrete complete booking body (the example of spec section 8). -/
def bookingBodyFull : BookingBody :=
  { name := some "A", email := some "a@b.com", phone := some "1",
    eventType := some "Portrait", date := some "2025-01-01",
    package := some "Basic", startTime := some "10:00",
    endTime := some "11:00", location := some "Park", details := none }

/-- Witness for claim C9 at a concrete input. -/
theorem email_outcome_independent_of_persistence_witness :
    truthy contactBodyFull.name = true
    ∧ truthy contactBodyFull.email = true
    ∧ truthy contactBodyFull.message = true
    ∧ truthy bookingBodyFull.name = true
    ∧ truthy bookingBodyFull.email = true
    ∧ truthy bookingBodyFull.phone = true
    ∧ truthy bookingBodyFull.eventType = true
    ∧ truthy bookingBodyFull.date = true
    ∧ truthy bookingBodyFull.package = true
    ∧ truthy bookingBodyFull.startTime = true
    ∧ truthy bookingBodyFull.endTime = true
    ∧ truthy bookingBodyFull.location = true
    ∧ (((runPost (.submitContact contactBodyFull "fresh-3" 3 true) true "tok-3" sampleState).2
        = (runPost (.submitContact contactBodyFull "fresh-3" 3 false) true "tok-3" sampleState).2)
    ∧ (∃ nm, (runPost (.submitContact contactBodyFull "fresh-3" 3 true) true "tok-3" sampleState).2.messages
        = sampleState.messages ++ [nm])
    ∧ (∀ eo : Bool,
        (runPost (.submitContact contactBodyFull "fresh-3" 3 eo) true "tok-3" sampleState).1.status = 201
        ∧ (runPost (.submitContact contactBodyFull "fresh-3" 3 eo) true "tok-3" sampleState).1.success = some true
        ∧ (runPost (.submitContact contactBodyFull "fresh-3" 3 eo) true "tok-3" sampleState).1.emailSent = some eo)
    ∧ ({ (runPost (.submitContact contactBodyFull "fresh-3" 3 true) true "tok-3" sampleState).1 with emailSent := none }
        = { (runPost (.submitContact contactBodyFull "fresh-3" 3 false) true "tok-3" sampleState).1 with emailSent := none })
    ∧ ((runPost (.submitBooking bookingBodyFull "fresh-4" 4 8 true) true "tok-4" sampleState).2
        = (runPost (.submitBooking bookingBodyFull "fresh-4" 4 8 false) true "tok-4" sampleState).2)
    ∧ (∃ nb, (runPost (.submitBooking bookingBodyFull "fresh-4" 4 8 true) true "tok-4" sampleState).2.bookings
        = sampleState.bookings ++ [nb])
    ∧ (∀ eo : Bool,
        (runPost (.submitBooking bookingBodyFull "fresh-4" 4 8 eo) true "tok-4" sampleState).1.status = 201
        ∧ (runPost (.submitBooking bookingBodyFull "fresh-4" 4 8 eo) true "tok-4" sampleState).1.success = some true
        ∧ (runPost (.submitBooking bookingBodyFull "fresh-4" 4 8 eo) true "tok-4" sampleState).1.emailSent = some eo)
    ∧ ({ (runPost (.submitBooking bookingBodyFull "fresh-4" 4 8 true) true "tok-4" sampleState).1 with emailSent := none }
        = { (runPost (.submitBooking bookingBodyFull "fresh-4" 4 8 false) true "tok-4" sampleState).1 with emailSent := none })) :=
  ⟨rfl, rfl, rfl, rfl, rfl, rfl, rfl, rfl, rfl, rfl, rfl, rfl,
   email_outcome_independent_of_persistence sampleState contactBodyFull bookingBodyFull
     "fresh-3" "fresh-4" "tok-3" "tok-4" 3 4 8
     rfl rfl rfl rfl rfl rfl rfl rfl rfl rfl rfl rfl⟩

/-- Claim C10: a required field present but equal to the empty string is
falsy, so the submission is answered exactly as when the field is absent:
400, nothing appended, identical response body; the conjuncts on the
all-absent bodies exhibit that the responses coincide. -/
theorem empty_required_field_like_missing
    (st : ServerState) (cb : ContactBody) (bb : BookingBody)
    (fid gid tokc tokb : String) (n1 n2 pd : Int) (eo : Bool)
    (hc : cb.name = some "" ∨ cb.email = some "" ∨ cb.message = some "")
    (hb : bb.name = some "" ∨ bb.email = some "" ∨ bb.phone = some ""
      ∨ bb.eventType = some "" ∨ bb.date = some "" ∨ bb.package = some ""
      ∨ bb.startTime = some "" ∨ bb.endTime = some "" ∨ bb.location = some "") :
    runPost (.submitContact cb fid n1 eo) true tokc st
      = ({ status := 400, success := some false,
           message := some "Missing required fields (name, email, message)",
           csrfToken := some tokc }, st)
    ∧ runPost (.submitContact {} fid n1 eo) true tokc st
      = ({ status := 400, success := some false,
           message := some "Missing required fields (name, email, message)",
           csrfToken := some tokc }, st)
    ∧ runPost (.submitBooking bb gid n2 pd eo) true tokb st
      = ({ status := 400, success := some false,
           message := some "Missing required fields",
           csrfToken := some tokb }, st)
    ∧ runPost (.submitBooking {} gid n2 pd eo) true tokb st
      = ({ status := 400, success := some false,
           message := some "Missing required fields",
           csrfToken := some tokb }, st) := by
  have hcondc : (!truthy cb.name || !truthy cb.email || !truthy cb.message) = true := by
    rcases hc with h | h | h <;> simp [h, truthy]
  have hcondb : (!truthy bb.name || !truthy bb.email || !truthy bb.phone ||
      !truthy bb.eventType || !truthy bb.date || !truthy bb.package ||
      !truthy bb.startTime || !truthy bb.endTime || !truthy bb.location) = true := by
    rcases hb with h | h | h | h | h | h | h | h | h <;> simp [h, truthy]
  refine ⟨?_, rfl, ?_, rfl⟩
  · rw [show runPost (.submitContact cb fid n1 eo) true tokc st
        = submitContactHandler cb fid n1 eo tokc st from rfl]
    rw [submitContactHandler, if_pos hcondc]
  · rw [show runPost (.submitBooking bb gid n2 pd eo) true tokb st
        = submitBookingHandler bb gid n2 pd eo tokb st from rfl]
    rw [submitBookingHandler, if_pos hcondb]

/-- A contact body whose name is present but empty. -/
def contactBodyEmptyName : ContactBody :=
  { name := some "", email := some "a@b.com", message := some "hello" }

/-- A booking body whose date is present but empty. -/
def bookingBodyEmptyDate : BookingBody :=
  { name := some "A", email := some "a@b.com", phone := some "1",
    eventType := some "Portrait", date := some "",
    package := some "Basic", startTime := some "10:00",
    endTime := some "11:00", location := some "Park", details := none }

/-- Witness for claim C10 at a concrete input. -/
theorem empty_required_field_like_missing_witness :
    (contactBodyEmptyName.name = some "" ∨ contactBodyEmptyName.email = some ""
      ∨ contactBodyEmptyName.message = some "")
    ∧ (bookingBodyEmptyDate.name = some "" ∨ bookingBodyEmptyDate.email = some ""
      ∨ bookingBodyEmptyDate.phone = some "" ∨ bookingBodyEmptyDate.eventType = some ""
      ∨ bookingBodyEmptyDate.date = some "" ∨ bookingBodyEmptyDate.package = some ""
      ∨ bookingBodyEmptyDate.startTime = some "" ∨ bookingBodyEmptyDate.endTime = some ""
      ∨ bookingBodyEmptyDate.location = some "")
    ∧ (runPost (.submitContact contactBodyEmptyName "fresh-5" 5 true) true "tok-5" sampleState
      = ({ status := 400, success := some false,
           message := some "Missing required fields (name, email, message)",
           csrfToken := some "tok-5" }, sampleState)
    ∧ runPost (.submitContact {} "fresh-5" 5 true) true "tok-5" sampleState
      = ({ status := 400, success := some false,
           message := some "Missing required fields (name, email, message)",
           csrfToken := some "tok-5" }, sampleState)
    ∧ runPost (.submitBooking bookingBodyEmptyDate "fresh-6" 6 9 true) true "tok-6" sampleState
      = ({ status := 400, success := some false,
           message := some "Missing required fields",
           csrfToken := some "tok-6" }, sampleState)
    ∧ runPost (.submitBooking {} "fresh-6" 6 9 true) true "tok-6" sampleState
      = ({ status := 400, success := some false,
           message := some "Missing required fields",
           csrfToken := some "tok-6" }, sampleState)) :=
  ⟨Or.inl rfl,
   Or.inr (Or.inr (Or.inr (Or.inr (Or.inl rfl)))),
   empty_required_field_like_missing sampleState contactBodyEmptyName bookingBodyEmptyDate
     "fresh-5" "fresh-6" "tok-5" "tok-6" 5 6 9 true
     (Or.inl rfl)
     (Or.inr (Or.inr (Or.inr (Or.inr (Or.inl rfl)))))⟩
